import Mathlib

/-!
Shallow embedding of `cmd/vault-secrets-webhook/registry/registry.go`
(package `registry` of bank-vaults).

Go strings are modelled as Lean `String`; Go `[]string` as `List String`
(`Option (List String)` where slice nil-ness is observable); Go byte
slices as `List Nat`; Go maps as association lists; Go `error` results as
`Option String` / `Except String`; a Go runtime panic as a distinguished
`GoResult.panic` outcome.  Network and Kubernetes side effects
(`registry.New`, `hub.ManifestV2`, `clientset...Secrets(...).Get`,
`json.Unmarshal`, ...) are oracles collected into environment records, so
the functions below are the pure control flow of the Go code over those
oracles.
-/

/-- Go `strings.HasPrefix` on rune lists: `startsWithChars s p` is true
iff `s` begins with `p`. -/
def startsWithChars : List Char → List Char → Bool
  | _, [] => true
  | [], _ :: _ => false
  | c :: cs, p :: ps => c == p && startsWithChars cs ps

/-- Go `strings.HasPrefix s p`. -/
def goHasPfx (s p : String) : Bool :=
  startsWithChars s.toList p.toList

/-- Go `strings.TrimLeft s cutset`: removes the leading characters of `s`
that belong to the character set `cutset` (NOT a prefix removal). -/
def goTrimLeft (s cutset : String) : String :=
  (s.toList.dropWhile (fun c => cutset.toList.contains c)).asString

/-- Go `strings.Count s c` for a one-character substring `c`. -/
def goCount (s : String) (c : Char) : Nat :=
  s.toList.count c

/-- Split a character list at the first occurrence of `sep`:
`some (before, after)`, or `none` when `sep` does not occur.  This is the
content of Go `strings.SplitN s sep 2` for a one-character `sep`. -/
def splitFirst : List Char → Char → Option (List Char × List Char)
  | [], _ => none
  | c :: cs, sep =>
    if c = sep then some ([], cs)
    else
      match splitFirst cs sep with
      | none => none
      | some (a, b) => some (c :: a, b)

/-- Function `ParseContainerImage` (registry.go:94-105): splits `image` on the
first `:` into `(imageName, tag, nil)`; with no `:` present it returns
`("", "", error)`. -/
def ParseContainerImage (image : String) : String × String × Option String :=
  match splitFirst image.toList ':' with
  | none => ("", "", some ("Cannot find tag for image " ++ image))
  | some (imageName, tag) => (imageName.asString, tag.asString, none)

/-- Function `isDockerHub` (registry.go:107-109). -/
def isDockerHub (registryAddress : String) : Bool :=
  goHasPfx registryAddress "https://registry-1.docker.io" ||
    goHasPfx registryAddress "https://index.docker.io"

/-- The client-creation condition of `GetImageBlob` (registry.go:51-59):
the insecure client is used exactly when `REGISTRY_SKIP_VERIFY == "true"`. -/
def registryClientInsecure (registrySkipVerify : String) : Bool :=
  registrySkipVerify == "true"

/-- Field `manifest.Config` of the V2 manifest: only the digest is consumed. -/
structure ManifestConfig where
  digest : String
deriving Repr, DecidableEq

/-- The V2 manifest returned by `hub.ManifestV2`. -/
structure Manifest where
  config : ManifestConfig
deriving Repr, DecidableEq

/-- Field `imagev1.Image.Config`: the entrypoint and command slices (possibly
nil, hence `Option`). -/
structure ImageV1Config where
  entrypoint : Option (List String)
  cmd : Option (List String)
deriving Repr, DecidableEq

/-- Type `imagev1.Image` as decoded from the config blob. -/
structure ImageV1 where
  config : ImageV1Config
deriving Repr, DecidableEq

/-- Environment of `GetImageBlob`: the `REGISTRY_SKIP_VERIFY` variable and
oracles for the registry-client effects.  Hubs and blob readers are opaque
handles (`Nat`). -/
structure RegistryEnv where
  registrySkipVerify : String
  newClient : Bool → String → String → String → Except String Nat
  manifestV2 : Nat → String → String → Except String Manifest
  downloadBlob : Nat → String → String → Except String Nat
  readAll : Nat → Except String (List Nat)
  unmarshalImage : List Nat → Except String ImageV1

/-- Function `GetImageBlob` (registry.go:45-91).  Result mirrors the Go triple
`([]string, []string, error)`: `(entrypoint, cmd, err)`. -/
def GetImageBlob (env : RegistryEnv) (url username password image : String) :
    Option (List String) × Option (List String) × Option String :=
  match ParseContainerImage image with
  | (_, _, some e) => (none, none, some e)
  | (imageName, tag, none) =>
    match env.newClient (registryClientInsecure env.registrySkipVerify) url username password with
    | Except.error e => (none, none, some ("cannot create client for registry: " ++ e))
    | Except.ok hub =>
      match env.manifestV2 hub imageName tag with
      | Except.error e => (none, none, some ("cannot download manifest for image: " ++ e))
      | Except.ok manifest =>
        match env.downloadBlob hub imageName manifest.config.digest with
        | Except.error e => (none, none, some ("cannot download blob: " ++ e))
        | Except.ok reader =>
          match env.readAll reader with
          | Except.error e => (none, none, some ("cannot read blob: " ++ e))
          | Except.ok b =>
            match env.unmarshalImage b with
            | Except.error e => (none, none, some ("cannot unmarshal BlobResponse JSON: " ++ e))
            | Except.ok imageMetadata =>
              (imageMetadata.config.entrypoint, imageMetadata.config.cmd, none)

/-- Type `dockerTypes.AuthConfig`: the fields consumed by `parseDockerConfig`. -/
structure AuthConfig where
  username : String
  password : String
deriving Repr, DecidableEq

/-- Type `DockerCreds` (registry.go:40-42): the `auths` map, as an association
list whose order stands for the (arbitrary) Go map iteration order. -/
structure DockerCreds where
  auths : List (String × AuthConfig)
deriving Repr, DecidableEq

/-- Type `corev1.LocalObjectReference`. -/
structure LocalObjectReference where
  name : String
deriving Repr, DecidableEq

/-- The part of `corev1.PodSpec` that `Load` consumes. -/
structure PodSpec where
  imagePullSecrets : List LocalObjectReference
deriving Repr, DecidableEq

/-- The part of `corev1.Container` that `Load` consumes. -/
structure Container where
  image : String
deriving Repr, DecidableEq

/-- The `K8s` structure (registry.go:145-154), clientset omitted (it is
part of the environment). -/
structure K8s where
  Namespace : String
  ImagePullSecrets : String
  RegistryAddress : String
  RegistryName : String
  RegistryUsername : String
  RegistryPassword : String
  Image : String
deriving Repr, DecidableEq

/-- The `K8s` value built at the top of `GetEntrypointCmd`:
`K8s{Namespace: namespace, clientset: clientset}`, all other fields at
their zero value `""`. -/
def initialK8s (ns : String) : K8s :=
  { Namespace := ns, ImagePullSecrets := "", RegistryAddress := "",
    RegistryName := "", RegistryUsername := "", RegistryPassword := "", Image := "" }

/-- Outcome of a Go function returning `error`: normal return, error
return, or runtime panic. -/
inductive GoResult (α : Type) where
  | ok : α → GoResult α
  | err : String → GoResult α
  | panic : String → GoResult α
deriving Repr, DecidableEq

/-- Constant `corev1.DockerConfigJsonKey`. -/
def dockerConfigJsonKey : String := ".dockerconfigjson"

/-- Function `parseDockerConfig` (registry.go:164-175).
`reflect.ValueOf(dockerCreds.Auths).MapKeys()[0]` panics when the map is
empty (index out of range), modelled by `none`; otherwise the first key of
the association list stands for the arbitrarily-ordered first map key. -/
def parseDockerConfig (k : K8s) (dockerCreds : DockerCreds) : Option K8s :=
  match dockerCreds.auths with
  | [] => none
  | (firstKey, _) :: _ =>
    let registryName := firstKey
    let registryAddress :=
      if ¬ goHasPfx registryName "https://" then "https://" ++ registryName
      else registryName
    let auth := (List.lookup registryName dockerCreds.auths).getD ⟨"", ""⟩
    some { k with
      RegistryName := registryName,
      RegistryAddress := registryAddress,
      RegistryUsername := auth.username,
      RegistryPassword := auth.password }

/-- Environment of `Load`: the secret-reading effect
(`readDockerSecret`, i.e. `clientset...Secrets(namespace).Get(name)`) and
`json.Unmarshal` into `DockerCreds`. -/
structure K8sEnv where
  readDockerSecret : String → String → Except String (List (String × List Nat))
  unmarshalDockerCreds : List Nat → Except String DockerCreds

/-- Method `Load` (registry.go:178-203). -/
def Load (env : K8sEnv) (k : K8s) (container : Container) (podSpec : PodSpec) :
    GoResult K8s :=
  let k := { k with Image := container.image }
  match podSpec.imagePullSecrets with
  | [] => GoResult.ok k
  | secret :: _ =>
    let k := { k with ImagePullSecrets := secret.name }
    if k.ImagePullSecrets ≠ "" then
      match env.readDockerSecret k.Namespace k.ImagePullSecrets with
      | Except.error e => GoResult.err ("cannot read imagePullSecrets: " ++ e)
      | Except.ok data =>
        let dockerConfig := (List.lookup dockerConfigJsonKey data).getD []
        match env.unmarshalDockerCreds dockerConfig with
        | Except.error e =>
          GoResult.err ("cannot unmarshal docker configuration from imagePullSecrets: " ++ e)
        | Except.ok dockerCreds =>
          match parseDockerConfig k dockerCreds with
          | none => GoResult.panic "runtime error: index out of range [0] with length 0"
          | some k2 => GoResult.ok k2
    else
      GoResult.ok k

/-- Lines 120-127 of `GetEntrypointCmd`: when a registry name was
resolved, `podInfo.Image = strings.TrimLeft(podInfo.Image,
fmt.Sprintf("%s/", podInfo.RegistryName))`. -/
def trimRegistryName (registryName image : String) : String :=
  if registryName ≠ "" then goTrimLeft image (registryName ++ "/") else image

/-- Lines 120-141 of `GetEntrypointCmd`: trim the registry name from the
image (via `strings.TrimLeft` on the cutset `RegistryName ++ "/"`),
default the registry address, and prepend `library/` for unqualified
Docker Hub images.  Returns `(registryAddress, image)` as passed to
`GetImageBlob`. -/
def resolveImageAndRegistry (registryName registryAddress image : String) :
    String × String :=
  let image := trimRegistryName registryName image
  let registryAddress :=
    if registryAddress = "" then "https://registry-1.docker.io/" else registryAddress
  let image :=
    if isDockerHub registryAddress && goCount image '/' == 0 then "library/" ++ image
    else image
  (registryAddress, image)

/-- Function `GetEntrypointCmd` (registry.go:112-142).  `none` is a propagated
panic (from `parseDockerConfig`); otherwise the Go triple. -/
def GetEntrypointCmd (renv : RegistryEnv) (kenv : K8sEnv) (ns : String)
    (container : Container) (podSpec : PodSpec) :
    Option (Option (List String) × Option (List String) × Option String) :=
  let podInfo := initialK8s ns
  match Load kenv podInfo container podSpec with
  | GoResult.panic _ => none
  | GoResult.err e => some (none, none, some e)
  | GoResult.ok podInfo =>
    let r := resolveImageAndRegistry podInfo.RegistryName podInfo.RegistryAddress podInfo.Image
    some (GetImageBlob renv r.1 podInfo.RegistryUsername podInfo.RegistryPassword r.2)

/-- A `K8sEnv` whose secret holds a well-formed docker config document
with an empty `auths` mapping: the secret bytes are the JSON
`\x7b"auths":\x7b\x7d\x7d` and `json.Unmarshal` accordingly yields
`DockerCreds` with zero auth entries. -/
def emptyAuthsK8sEnv : K8sEnv :=
  { readDockerSecret := fun _ _ =>
      Except.ok [(dockerConfigJsonKey,
        [123, 34, 97, 117, 116, 104, 115, 34, 58, 123, 125, 125])],
    unmarshalDockerCreds := fun _ => Except.ok { auths := [] } }

/-- A `RegistryEnv` whose client constructor fails with a message
recording whether the insecure client was requested, so the TLS-skip
decision of `GetImageBlob` is observable in its result. -/
def probeRegistryEnv (sv : String) : RegistryEnv :=
  { registrySkipVerify := sv,
    newClient := fun insecure _ _ _ =>
      Except.error (if insecure then "insecure client" else "secure client"),
    manifestV2 := fun _ _ _ => Except.error "unused",
    downloadBlob := fun _ _ _ => Except.error "unused",
    readAll := fun _ => Except.error "unused",
    unmarshalImage := fun _ => Except.error "unused" }

/-! ## Lemmas about the Go string primitives -/

/-- Predicate `startsWithChars s p` holds exactly when `p` is a prefix of `s`. -/
theorem startsWithChars_iff (s p : List Char) :
    startsWithChars s p = true ↔ ∃ r, s = p ++ r := by
  induction p generalizing s with
  | nil => simp [startsWithChars]
  | cons x xs ih =>
    cases s with
    | nil => simp [startsWithChars]
    | cons y ys => simp [startsWithChars, ih]

/-- Predicate `goHasPfx s p` holds exactly when `s` is `p` followed by a rest. -/
theorem goHasPfx_iff (s p : String) : goHasPfx s p = true ↔ ∃ r : String, s = p ++ r := by
  unfold goHasPfx
  rw [startsWithChars_iff]
  constructor
  · rintro ⟨r, hr⟩
    exact ⟨r.asString, String.toList_inj.mp hr⟩
  · rintro ⟨r, rfl⟩
    exact ⟨r.toList, rfl⟩

/-- Helper: `splitFirst` finds nothing when the separator does not occur. -/
theorem splitFirst_eq_none (l : List Char) (sep : Char) (h : sep ∉ l) :
    splitFirst l sep = none := by
  induction l with
  | nil => rfl
  | cons c cs ih =>
    simp only [List.mem_cons, not_or] at h
    simp [splitFirst, Ne.symm h.1, ih h.2]

/-- What a successful `splitFirst` means: the list is
`before ++ sep :: after` and `sep` does not occur in `before`. -/
theorem splitFirst_spec (sep : Char) :
    ∀ l a b : List Char, splitFirst l sep = some (a, b) →
      l = a ++ sep :: b ∧ sep ∉ a := by
  intro l
  induction l with
  | nil => intro a b h; simp [splitFirst] at h
  | cons c cs ih =>
    intro a b h
    by_cases hc : c = sep
    · subst hc
      simp [splitFirst] at h
      obtain ⟨rfl, rfl⟩ := h
      simp
    · rw [splitFirst, if_neg hc] at h
      cases hsf : splitFirst cs sep with
      | none => rw [hsf] at h; simp at h
      | some p =>
        obtain ⟨a2, b2⟩ := p
        rw [hsf] at h
        simp only [Option.some.injEq, Prod.mk.injEq] at h
        obtain ⟨h1, h2⟩ := h
        subst h1
        subst h2
        obtain ⟨hl, hna⟩ := ih a2 b2 hsf
        refine ⟨by rw [hl]; rfl, ?_⟩
        simp only [List.mem_cons, not_or]
        exact ⟨fun hsc => hc hsc.symm, hna⟩

/-- Helper: `splitFirst` succeeds when the separator occurs. -/
theorem splitFirst_mem (l : List Char) (sep : Char) (h : sep ∈ l) :
    ∃ a b, splitFirst l sep = some (a, b) := by
  induction l with
  | nil => cases h
  | cons c cs ih =>
    by_cases hc : c = sep
    · subst hc; exact ⟨[], cs, by simp [splitFirst]⟩
    · have hmem : sep ∈ cs := by
        cases h with
        | head => exact absurd rfl hc
        | tail _ h2 => exact h2
      obtain ⟨a, b, hab⟩ := ih hmem
      exact ⟨c :: a, b, by simp [splitFirst, hc, hab]⟩

/-- Every run of `GetImageBlob` is either a success carrying the decoded
entrypoint and cmd with no error, or an error with both outputs nil. -/
theorem getImageBlob_cases (env : RegistryEnv) (url username password image : String) :
    (∃ ep cmd, GetImageBlob env url username password image = (ep, cmd, none)) ∨
    (∃ e, GetImageBlob env url username password image = (none, none, some e)) := by
  unfold GetImageBlob
  repeat' split
  all_goals first
    | exact Or.inr ⟨_, rfl⟩
    | exact Or.inl ⟨_, _, rfl⟩

/-! ## Claim theorems -/

/-- C5: for every image string with no `:`, `ParseContainerImage` returns
an error together with empty name and tag. -/
theorem parseContainerImage_missing_tag_error (image : String) (h : ':' ∉ image.toList) :
    ParseContainerImage image = ("", "", some ("Cannot find tag for image " ++ image)) := by
  unfold ParseContainerImage
  rw [splitFirst_eq_none image.toList ':' h]

/-- Witness for C5 at the concrete input `"redis"`. -/
theorem parseContainerImage_missing_tag_error_witness :
    ParseContainerImage "redis" = ("", "", some ("Cannot find tag for image " ++ "redis")) :=
  parseContainerImage_missing_tag_error "redis" (by decide)

/-- C6: for every image string containing a `:`, `ParseContainerImage`
splits at the first `:` (the name contains no `:`) and returns name and
tag with no error; in particular `"library/nginx:1.19"` yields
`("library/nginx", "1.19")`. -/
theorem parseContainerImage_splits_on_first_colon :
    (∀ image : String, ':' ∈ image.toList →
       ∃ pre post : List Char, image.toList = pre ++ ':' :: post ∧ ':' ∉ pre ∧
         ParseContainerImage image = (pre.asString, post.asString, none)) ∧
    ParseContainerImage "library/nginx:1.19" = ("library/nginx", "1.19", none) := by
  constructor
  · intro image h
    obtain ⟨a, b, hab⟩ := splitFirst_mem image.toList ':' h
    obtain ⟨hl, hna⟩ := splitFirst_spec ':' image.toList a b hab
    exact ⟨a, b, hl, hna, by unfold ParseContainerImage; rw [hab]⟩
  · decide

/-- Witness for C6 at the concrete input `"library/nginx:1.19"`. -/
theorem parseContainerImage_splits_on_first_colon_witness :
    ∃ pre post : List Char,
      ("library/nginx:1.19" : String).toList = pre ++ ':' :: post ∧ ':' ∉ pre ∧
      ParseContainerImage "library/nginx:1.19" = (pre.asString, post.asString, none) :=
  parseContainerImage_splits_on_first_colon.1 "library/nginx:1.19" (by decide)

/-- C8: `isDockerHub` is true exactly on addresses that begin with
`https://registry-1.docker.io` or `https://index.docker.io`, and in
particular false on `https://myregistry.example.com`. -/
theorem isDockerHub_iff :
    (∀ a : String, isDockerHub a = true ↔
       (∃ r, a = "https://registry-1.docker.io" ++ r) ∨
       (∃ r, a = "https://index.docker.io" ++ r)) ∧
    isDockerHub "https://myregistry.example.com" = false := by
  constructor
  · intro a
    simp [isDockerHub, goHasPfx_iff]
  · decide

/-- Witness for C8 at the concrete input `"https://index.docker.io/v1/"`. -/
theorem isDockerHub_iff_witness :
    isDockerHub "https://index.docker.io/v1/" = true :=
  (isDockerHub_iff.1 "https://index.docker.io/v1/").mpr (Or.inr ⟨"/v1/", by decide⟩)

/-- C7: the registry client is created insecurely (TLS verification
disabled) iff `REGISTRY_SKIP_VERIFY` equals the literal `"true"`, and the
choice is what `GetImageBlob` feeds to the client constructor. -/
theorem registry_skip_verify_iff :
    (∀ s : String, registryClientInsecure s = true ↔ s = "true") ∧
    (∀ sv url username password : String,
       GetImageBlob (probeRegistryEnv sv) url username password "redis:6" =
         (none, none, some ("cannot create client for registry: " ++
           if registryClientInsecure sv then "insecure client" else "secure client"))) := by
  constructor
  · intro s
    simp [registryClientInsecure]
  · intro sv url username password
    rfl

/-- Witness for C7: with the variable set to `"true"` the insecure client
is chosen; unset (empty) keeps verification. -/
theorem registry_skip_verify_iff_witness :
    registryClientInsecure "true" = true ∧
    GetImageBlob (probeRegistryEnv "") "u" "n" "p" "redis:6" =
      (none, none, some ("cannot create client for registry: " ++ "secure client")) :=
  ⟨(registry_skip_verify_iff.1 "true").mpr rfl,
   registry_skip_verify_iff.2 "" "u" "n" "p"⟩

/-- C1 (refuted): the image trim in `GetEntrypointCmd` is
`strings.TrimLeft` with the cutset `RegistryName ++ "/"`, not a prefix
strip.  With registry name `docker.io`, the image `docker.io/redis:6`
(which starts with `docker.io/`) is trimmed to `s:6`, not to the
`name:tag` remainder `redis:6`; an image `redis:6` that does not start
with `docker.io/` is likewise mangled to `s:6` rather than left
unchanged. -/
theorem trimLeft_cutset_mangles_image :
    trimRegistryName "docker.io" "docker.io/redis:6" = "s:6" ∧
    trimRegistryName "docker.io" "redis:6" = "s:6" ∧
    resolveImageAndRegistry "docker.io" "https://docker.io" "docker.io/redis:6" =
      ("https://docker.io", "s:6") ∧
    ("s:6" : String) ≠ "redis:6" := by
  refine ⟨by decide, by decide, by decide, by decide⟩

/-- C2 (refuted): `parseDockerConfig` indexes
`reflect.ValueOf(dockerCreds.Auths).MapKeys()[0]` without checking that
the map is non-empty.  With a pull secret whose docker config decodes to
zero auth entries, `Load` does not complete normally: it panics with an
index-out-of-range runtime error. -/
theorem load_panics_on_empty_auths :
    Load emptyAuthsK8sEnv (initialK8s "default") ⟨"redis:6"⟩ ⟨[⟨"pull-secret"⟩]⟩ =
      GoResult.panic "runtime error: index out of range [0] with length 0" ∧
    parseDockerConfig (initialK8s "default") { auths := [] } = none := by
  exact ⟨rfl, rfl⟩

/-- C3: no partial success — `GetImageBlob` returns either both decoded
sequences with a nil error or a non-nil error with both outputs nil, at
every failure stage; `GetEntrypointCmd` either propagates a panic from
`Load` or likewise returns success or an error with nil outputs. -/
theorem getImageBlob_all_or_nothing :
    (∀ (env : RegistryEnv) (url username password image : String),
       (∃ ep cmd, GetImageBlob env url username password image = (ep, cmd, none)) ∨
       (∃ e, GetImageBlob env url username password image = (none, none, some e))) ∧
    (∀ (renv : RegistryEnv) (kenv : K8sEnv) (ns : String)
       (container : Container) (podSpec : PodSpec),
       GetEntrypointCmd renv kenv ns container podSpec = none ∨
       (∃ ep cmd, GetEntrypointCmd renv kenv ns container podSpec = some (ep, cmd, none)) ∨
       (∃ e, GetEntrypointCmd renv kenv ns container podSpec = some (none, none, some e))) := by
  refine ⟨getImageBlob_cases, ?_⟩
  intro renv kenv ns container podSpec
  unfold GetEntrypointCmd
  dsimp only
  split
  · exact Or.inl rfl
  · exact Or.inr (Or.inr ⟨_, rfl⟩)
  · rename_i podInfo _
    rcases getImageBlob_cases renv
      (resolveImageAndRegistry podInfo.RegistryName podInfo.RegistryAddress podInfo.Image).1
      podInfo.RegistryUsername podInfo.RegistryPassword
      (resolveImageAndRegistry podInfo.RegistryName podInfo.RegistryAddress podInfo.Image).2
      with ⟨ep, cmd, h⟩ | ⟨e, h⟩
    · exact Or.inr (Or.inl ⟨ep, cmd, by rw [h]⟩)
    · exact Or.inr (Or.inr ⟨e, by rw [h]⟩)

/-- C4: with no resolved registry address the address defaults to
`https://registry-1.docker.io/`; when the address in use is Docker Hub
and the (trimmed) image has no `/`, `library/` is prepended; in
particular `redis:6` against the default registry goes downstream as
`library/redis:6`. -/
theorem default_registry_and_library_image :
    (∀ registryName image : String,
       (resolveImageAndRegistry registryName "" image).1 = "https://registry-1.docker.io/") ∧
    (∀ registryName registryAddress image : String,
       isDockerHub (resolveImageAndRegistry registryName registryAddress image).1 = true →
       goCount (trimRegistryName registryName image) '/' = 0 →
       (resolveImageAndRegistry registryName registryAddress image).2 =
         "library/" ++ trimRegistryName registryName image) ∧
    resolveImageAndRegistry "" "" "redis:6" = ("https://registry-1.docker.io/", "library/redis:6") := by
  refine ⟨?_, ?_, by decide⟩
  · intro registryName image
    simp [resolveImageAndRegistry]
  · intro registryName registryAddress image h1 h2
    simp only [resolveImageAndRegistry] at h1 ⊢
    simp [h1, h2]

/-- Witness for C4 at the concrete input `redis:6` with nothing
resolved. -/
theorem default_registry_and_library_image_witness :
    (resolveImageAndRegistry "" "" "redis:6").1 = "https://registry-1.docker.io/" ∧
    (resolveImageAndRegistry "" "" "redis:6").2 = "library/" ++ trimRegistryName "" "redis:6" :=
  ⟨default_registry_and_library_image.1 "" "redis:6",
   default_registry_and_library_image.2.1 "" "" "redis:6" (by decide) (by decide)⟩

/-- C9: with zero image-pull secrets, `Load` returns no error and changes
only the `Image` field; starting from the `K8s` value `GetEntrypointCmd`
builds, every registry field is left empty. -/
theorem load_zero_pull_secrets_frame :
    (∀ (env : K8sEnv) (k : K8s) (container : Container),
       Load env k container ⟨[]⟩ = GoResult.ok { k with Image := container.image }) ∧
    (∀ (env : K8sEnv) (ns : String) (container : Container) (podSpec : PodSpec),
       podSpec.imagePullSecrets = [] →
       ∃ k2, Load env (initialK8s ns) container podSpec = GoResult.ok k2 ∧
         k2.RegistryAddress = "" ∧ k2.RegistryName = "" ∧ k2.RegistryUsername = "" ∧
         k2.RegistryPassword = "" ∧ k2.ImagePullSecrets = "" ∧
         k2.Image = container.image ∧ k2.Namespace = ns) := by
  constructor
  · intro env k container
    rfl
  · intro env ns container podSpec h
    obtain ⟨l⟩ := podSpec
    change l = [] at h
    subst h
    exact ⟨_, rfl, rfl, rfl, rfl, rfl, rfl, rfl, rfl⟩

/-- Witness for C9 at a concrete empty pull-secret list. -/
theorem load_zero_pull_secrets_frame_witness :
    ∃ k2, Load emptyAuthsK8sEnv (initialK8s "default") ⟨"redis:6"⟩ ⟨[]⟩ = GoResult.ok k2 ∧
      k2.RegistryAddress = "" ∧ k2.RegistryName = "" ∧ k2.RegistryUsername = "" ∧
      k2.RegistryPassword = "" ∧ k2.ImagePullSecrets = "" ∧
      k2.Image = "redis:6" ∧ k2.Namespace = "default" :=
  load_zero_pull_secrets_frame.2 emptyAuthsK8sEnv "default" ⟨"redis:6"⟩ ⟨[]⟩ rfl

/-- C10: `Load` looks only at the first image-pull secret (later entries
never change the result), and when the first entry's name is empty no
secret is read (the result is the same for every environment): `Load`
returns no error, sets only `Image`, and `ImagePullSecrets` stays
empty. -/
theorem load_first_pull_secret_only :
    (∀ (env : K8sEnv) (k : K8s) (container : Container)
       (s : LocalObjectReference) (rest rest2 : List LocalObjectReference),
       Load env k container ⟨s :: rest⟩ = Load env k container ⟨s :: rest2⟩) ∧
    (∀ (env : K8sEnv) (k : K8s) (container : Container)
       (s : LocalObjectReference) (rest : List LocalObjectReference),
       s.name = "" →
       Load env k container ⟨s :: rest⟩ =
         GoResult.ok { k with Image := container.image, ImagePullSecrets := "" }) := by
  constructor
  · intro env k container s rest rest2
    rfl
  · intro env k container s rest h
    obtain ⟨n⟩ := s
    change n = "" at h
    subst h
    rfl

/-- Witness for C10: an empty-named first pull secret followed by a
non-empty one — `Load` succeeds, ignores the second entry, and leaves the
registry fields of the initial `K8s` empty. -/
theorem load_first_pull_secret_only_witness :
    Load emptyAuthsK8sEnv (initialK8s "default") ⟨"redis:6"⟩ ⟨[⟨""⟩, ⟨"other-secret"⟩]⟩ =
      GoResult.ok { initialK8s "default" with Image := "redis:6", ImagePullSecrets := "" } :=
  load_first_pull_secret_only.2 emptyAuthsK8sEnv (initialK8s "default") ⟨"redis:6"⟩
    ⟨""⟩ [⟨"other-secret"⟩] rfl
